import Mathlib

/-!
Verification of the hts server driver (src/hts.c): a shallow embedding of
parse_arguments and of main's startup sequence, outer accept loop and inner
bridge loop.  External collaborators (the tunnel endpoint, poll, time,
open_device, do_connect, the handle_input helpers) are modelled as oracle
inputs; observable actions of hts.c itself become events in a trace.
-/

namespace Hts

/-- Default constants from common.h (the header is not in src/; the values
follow the spec: default port 8888, default window 64 KiB, default
keep-alive 5 s).  No claim depends on the particular values. -/
def DEFAULT_HOST_PORT : Int := 8888

/-- Default content length, 64 KiB. -/
def DEFAULT_CONTENT_LENGTH : Nat := 65536

/-- Default keep-alive interval in seconds. -/
def DEFAULT_KEEP_ALIVE : Int := 5

/-- Default maximum connection age in seconds. -/
def DEFAULT_CONNECTION_MAX_TIME : Int := 300

/-- The Arguments record filled in by parse_arguments (src/hts.c lines 19-31).
A NULL char pointer is Option.none; forward_port uses the C sentinel -1. -/
structure Arguments where
  device : Option String
  port : Int
  forward_host : Option String
  forward_port : Int
  content_length : Nat
  pid_filename : Option String
  strict_content_length : Bool
  keep_alive : Int
  max_connection_age : Int
deriving DecidableEq, Repr

/-- The defaults installed at the top of parse_arguments (lines 77-86). -/
def defaultArguments : Arguments :=
  { device := none
    port := DEFAULT_HOST_PORT
    forward_host := none
    forward_port := -1
    content_length := DEFAULT_CONTENT_LENGTH
    pid_filename := none
    strict_content_length := false
    keep_alive := DEFAULT_KEEP_ALIVE
    max_connection_age := DEFAULT_CONNECTION_MAX_TIME }

/-- One option as delivered by one getopt_long step inside the scanning loop
of parse_arguments.  The DEBUG_MODE-only options -D and -l do not exist in
the default build and are absent.  For -F, name_and_port has already split
HOST:PORT: the constructor carries the resulting host and port (port -1 when
the port was missing).  unknownOpt is getopt's own error return, for which
the switch merely breaks. -/
inductive CliOpt where
  | contentLength (n : Nat)
  | device (path : String)
  | forwardPort (host : Option String) (port : Int)
  | help
  | keepAlive (n : Int)
  | maxConnectionAge (n : Int)
  | strict
  | version
  | pidFile (path : String)
  | unknownOpt
deriving DecidableEq, Repr

/-- Observable actions of hts.c, in program order. -/
inductive Event where
  | usageOut
  | usageErr
  | versionOut
  | forwardPortErr
  | exited (code : Nat)
  | bindListener
  | setoptFailLog (name : String)
  | writePid (content : String)
  | openDev
  | acceptTry
  | acceptFailLog
  | connectTry
  | paddingWrite (n : Nat)
  | handledInput
  | closeDownstream
  | tunnelCloseEv
deriving DecidableEq, Repr

/-- Result of parse_arguments: either the process already exited (with the
events emitted on the way out) or the completed Arguments record. -/
inductive ParseResult where
  | exited (events : List Event) (code : Nat)
  | ok (args : Arguments)
deriving DecidableEq, Repr

/-- The option-scanning loop of parse_arguments (lines 88-197).  -h prints
usage on stdout and exits 0; -V prints the version and exits 0; -F with a
missing port prints an error and exits 1; every other option updates the
record and scanning continues. -/
def processOpts : List CliOpt → Arguments → ParseResult
  | [], a => .ok a
  | o :: os, a =>
    match o with
    | .contentLength n => processOpts os { a with content_length := n }
    | .device p => processOpts os { a with device := some p }
    | .forwardPort h p =>
        if p == -1 then .exited [Event.forwardPortErr, Event.exited 1] 1
        else processOpts os { a with forward_host := h, forward_port := p }
    | .help => .exited [Event.usageOut, Event.exited 0] 0
    | .keepAlive n => processOpts os { a with keep_alive := n }
    | .maxConnectionAge n => processOpts os { a with max_connection_age := n }
    | .strict => processOpts os { a with strict_content_length := true }
    | .version => .exited [Event.versionOut, Event.exited 0] 0
    | .pidFile p => processOpts os { a with pid_filename := some p }
    | .unknownOpt => processOpts os a

/-- The validation block after the scanning loop (lines 207-237): the
device/forward-port exclusive-or checks, then the redundant combined check.
In the default build debug_level is 0 and debug_file is NULL, so the
logfile check at line 224 can never fire and is omitted. -/
def afterLoopChecks (a : Arguments) : ParseResult :=
  if a.device.isNone && a.forward_port == -1 then
    .exited [Event.usageErr, Event.exited 1] 1
  else if !a.device.isNone && a.forward_port != -1 then
    .exited [Event.usageErr, Event.exited 1] 1
  else if (a.device.isNone == (a.forward_port == -1)) || a.port == -1 ||
      (a.forward_host.isNone != (a.forward_port == -1)) then
    .exited [Event.usageErr, Event.exited 1] 1
  else .ok a

/-- parse_arguments (lines 70-238): scan the options, then handle the
optional positional port argument (lines 199-205), then run the validation
block.  positional is the list of non-option arguments. -/
def parse_arguments (opts : List CliOpt) (positional : List Int) : ParseResult :=
  match processOpts opts defaultArguments with
  | .exited es c => .exited es c
  | .ok a =>
    match positional with
    | [] => afterLoopChecks a
    | [p] => afterLoopChecks { a with port := p }
    | _ :: _ :: _ => .exited [Event.usageErr, Event.exited 1] 1

/-- Oracle results for the external calls made by main before the outer
loop: whether tunnel_new_server succeeded, the return values of the three
tunnel_setopt calls (lines 280-291), whether fopen of the pid file
succeeded, and the process id returned by getpid. -/
structure World where
  tunnelNewOk : Bool
  setoptStrictRes : Int
  setoptKeepAliveRes : Int
  setoptMaxAgeRes : Int
  pidOpenOk : Bool
  pid : Nat
deriving DecidableEq, Repr

/-- Outcome of main up to the top of the outer for loop (line 318): either
the process exited, or it enters the loop with the given Arguments, having
emitted the given events. -/
inductive StartupResult where
  | exited (events : List Event) (code : Nat)
  | entersLoop (events : List Event) (args : Arguments)
deriving DecidableEq, Repr

/-- Boolean classifier: did the startup phase exit the process? -/
def StartupResult.isExit : StartupResult → Bool
  | .exited _ _ => true
  | .entersLoop _ _ => false

/-- Events of the three tunnel_setopt calls (lines 280-291): a call that
returns -1 only produces a debug log entry; main continues either way. -/
def setoptEvents (w : World) : List Event :=
  (if w.setoptStrictRes == -1 then [Event.setoptFailLog "strict_content_length"] else []) ++
  (if w.setoptKeepAliveRes == -1 then [Event.setoptFailLog "keep_alive"] else []) ++
  (if w.setoptMaxAgeRes == -1 then [Event.setoptFailLog "max_connection_age"] else [])

/-- Events of the pid-file block (lines 299-316): when a pid file was
requested and fopen succeeds, main writes the decimal pid and a newline;
when fopen fails it only prints a complaint and continues. -/
def pidEvents (a : Arguments) (w : World) : List Event :=
  match a.pid_filename with
  | none => []
  | some _ => if w.pidOpenOk then [Event.writePid (toString w.pid ++ "\n")] else []

/-- main from its first statement to the top of the outer for loop
(lines 249-318): parse_arguments first (any exit there happens before
tunnel_new_server, so before any listener is bound), then
tunnel_new_server (which binds the listener; on failure log_exit 1), then
the three tunnel_setopt calls, then the pid file. -/
def mainStartup (opts : List CliOpt) (positional : List Int) (w : World) :
    StartupResult :=
  match parse_arguments opts positional with
  | .exited es c => .exited es c
  | .ok a =>
    if !w.tunnelNewOk then .exited [Event.exited 1] 1
    else .entersLoop ([Event.bindListener] ++ setoptEvents w ++ pidEvents a w) a

/-- Oracle results for the external calls of one outer-loop iteration:
the fd returned by open_device (-1 on failure), whether tunnel_accept
succeeded, whether set_address succeeded, and the fd returned by
do_connect (-1 on failure). -/
structure OuterWorld where
  openDeviceRes : Int
  acceptOk : Bool
  setAddressOk : Bool
  connectRes : Int
deriving DecidableEq, Repr

/-- Outcome of the head of one outer-loop iteration (lines 318-363), up to
the point where the inner bridge loop would start. -/
inductive OuterOutcome where
  | exitProcess (events : List Event) (code : Nat)
  | retryAccept (events : List Event)
  | session (events : List Event) (fd : Int)
deriving DecidableEq, Repr

/-- One outer-loop iteration head (lines 318-363).  In device mode the
device is opened first (failure: log_exit 1).  Then tunnel_accept; on
failure main logs a notice and continues the outer loop, closing nothing.
In forward mode set_address and do_connect follow (failure of either:
log_exit 1).  Otherwise the session starts on the obtained fd. -/
def outerStep (a : Arguments) (w : OuterWorld) : OuterOutcome :=
  let devEv : List Event := if a.device.isSome then [Event.openDev] else []
  if a.device.isSome && w.openDeviceRes == -1 then
    .exitProcess (devEv ++ [Event.exited 1]) 1
  else if !w.acceptOk then
    .retryAccept (devEv ++ [Event.acceptTry, Event.acceptFailLog])
  else if a.forward_port != -1 then
    if !w.setAddressOk then
      .exitProcess (devEv ++ [Event.acceptTry, Event.exited 1]) 1
    else if w.connectRes == -1 then
      .exitProcess (devEv ++ [Event.acceptTry, Event.connectTry, Event.exited 1]) 1
    else
      .session (devEv ++ [Event.acceptTry, Event.connectTry]) w.connectRes
  else
    .session (devEv ++ [Event.acceptTry]) (if a.device.isSome then w.openDeviceRes else -1)

/-- State of the inner bridge loop: the closed flag and last_tunnel_write
(lines 320, 365-366). -/
structure BridgeState where
  closed : Bool
  last_tunnel_write : Int
deriving DecidableEq, Repr

/-- Outcome of one poll call, as seen by the bridge loop: -1, 0 (timeout),
or positive with the two readability bits. -/
inductive PollResult where
  | pollErr
  | pollTimeout
  | ready (devReadable : Bool) (tunReadable : Bool)
deriving DecidableEq, Repr

/-- The poll timeout computation (lines 379-382): timeout is
1000 * (keep_alive - (t - last_tunnel_write)), clamped below at 0. -/
def computeTimeout (keep_alive t last_tunnel_write : Int) : Int :=
  let timeout := 1000 * (keep_alive - (t - last_tunnel_write))
  if timeout < 0 then 0 else timeout

/-- Outcome of one bridge-loop iteration. -/
inductive BridgeOutcome where
  | exitProcess (events : List Event) (code : Nat)
  | continueLoop (events : List Event) (s : BridgeState)
deriving DecidableEq, Repr

/-- One iteration of the bridge loop body (lines 367-409) after poll has
returned.  now is the time just sampled at line 379.  On poll error:
log_exit 1.  On timeout: tunnel_padding(tunnel, 1), last_tunnel_write is
reset to the current time, and the loop continues (the closed flag is
untouched).  Otherwise the two handle_input calls run (they live in the
companion common.c; their effect on the closed flag is the oracle
closedAfterHandlers) and last_tunnel_write is refreshed iff the
downstream fd was readable (line 407). -/
def bridgeStep (now : Int) (s : BridgeState) (pr : PollResult)
    (closedAfterHandlers : Bool) : BridgeOutcome :=
  match pr with
  | .pollErr => .exitProcess [Event.exited 1] 1
  | .pollTimeout =>
      .continueLoop [Event.paddingWrite 1] { s with last_tunnel_write := now }
  | .ready devReadable _ =>
      .continueLoop [Event.handledInput]
        { closed := closedAfterHandlers
          last_tunnel_write := if devReadable then now else s.last_tunnel_write }

/-- How a fuel-bounded run of the bridge loop ended. -/
inductive RunStatus where
  | exitedRun (code : Nat)
  | closedDone
  | outOfFuel
deriving DecidableEq, Repr

/-- Fuel-bounded run of the while (!closed) loop (lines 367-409).  times,
polls and closers give, per iteration, the sampled time, the poll outcome
and the closed flag as left by the handle_input calls. -/
def bridgeRun : Nat → BridgeState → (Nat → Int) → (Nat → PollResult) →
    (Nat → Bool) → List Event × RunStatus
  | 0, _, _, _, _ => ([], .outOfFuel)
  | fuel + 1, s, times, polls, closers =>
    if s.closed then ([], .closedDone)
    else
      match bridgeStep (times 0) s (polls 0) (closers 0) with
      | .exitProcess es c => (es, .exitedRun c)
      | .continueLoop es s2 =>
          let rest := bridgeRun fuel s2 (fun n => times (n + 1))
            (fun n => polls (n + 1)) (fun n => closers (n + 1))
          (es ++ rest.1, rest.2)

/-- Outcome of one complete outer-loop iteration. -/
inductive IterOutcome where
  | exitProcess (events : List Event) (code : Nat)
  | nextIteration (events : List Event)
  | stuck
deriving DecidableEq, Repr

/-- One complete outer-loop iteration (lines 318-415): the iteration head,
then — if a session started — the bridge loop from closed = FALSE and
last_tunnel_write = t0 (line 366).  When the bridge loop leaves because
closed became set, main closes the downstream fd, calls tunnel_close on
the (same, still live) tunnel, and falls to the next outer iteration. -/
def outerIteration (a : Arguments) (w : OuterWorld) (fuel : Nat) (t0 : Int)
    (times : Nat → Int) (polls : Nat → PollResult) (closers : Nat → Bool) :
    IterOutcome :=
  match outerStep a w with
  | .exitProcess es c => .exitProcess es c
  | .retryAccept es => .nextIteration es
  | .session es _ =>
    match bridgeRun fuel { closed := false, last_tunnel_write := t0 } times polls closers with
    | (bes, .exitedRun c) => .exitProcess (es ++ bes) c
    | (bes, .closedDone) =>
        .nextIteration (es ++ bes ++ [Event.closeDownstream, Event.tunnelCloseEv])
    | (_, .outOfFuel) => .stuck

/-- Concrete option list for the C4 scenario: a valid device-mode command
line. -/
def c4Args : List CliOpt := [CliOpt.device "/dev/ttyS0"]

/-- Concrete world for the C4 scenario: tunnel creation succeeds, all three
tunnel_setopt calls return -1. -/
def c4World : World :=
  { tunnelNewOk := true, setoptStrictRes := -1, setoptKeepAliveRes := -1,
    setoptMaxAgeRes := -1, pidOpenOk := false, pid := 7 }

/-- Concrete Arguments for the C5 scenario: forward mode to h:7. -/
def c5Args : Arguments :=
  { defaultArguments with forward_host := some "h", forward_port := 7 }

/-- Concrete outer-loop world for the C5 scenario: accept and set_address
succeed, do_connect fails. -/
def c5World : OuterWorld :=
  { openDeviceRes := 0, acceptOk := true, setAddressOk := true, connectRes := -1 }

/-- Concrete outer-loop world for the C6 scenario: everything succeeds. -/
def c6World : OuterWorld :=
  { openDeviceRes := 3, acceptOk := true, setAddressOk := true, connectRes := 3 }

/-- Concrete option list for the C8 scenario: device mode plus a pid file. -/
def c8Opts : List CliOpt := [CliOpt.device "/dev/ttyS0", CliOpt.pidFile "/run/hts.pid"]

/-- The Arguments record produced by scanning c8Opts. -/
def c8Args : Arguments :=
  { defaultArguments with
    device := some "/dev/ttyS0"
    pid_filename := some "/run/hts.pid" }

/-- Concrete world for the C8 scenario: everything succeeds, pid 1234. -/
def c8World : World :=
  { tunnelNewOk := true, setoptStrictRes := 0, setoptKeepAliveRes := 0,
    setoptMaxAgeRes := 0, pidOpenOk := true, pid := 1234 }

end Hts

namespace Hts

/-- Appending more options to a scan that completed without exiting
continues the scan from the accumulated record. -/
theorem processOpts_append (pre rest : List CliOpt) (d a : Arguments)
    (h : processOpts pre d = ParseResult.ok a) :
    processOpts (pre ++ rest) d = processOpts rest a := by
  induction pre generalizing d with
  | nil =>
      simp only [processOpts] at h
      injection h with h2
      subst h2
      rfl
  | cons o os ih =>
      cases o with
      | contentLength n =>
          simp only [List.cons_append, processOpts] at h ⊢
          exact ih _ h
      | device p =>
          simp only [List.cons_append, processOpts] at h ⊢
          exact ih _ h
      | forwardPort hh pp =>
          simp only [List.cons_append, processOpts] at h ⊢
          by_cases hc : (pp == -1) = true
          · rw [if_pos hc] at h
            cases h
          · rw [if_neg hc] at h
            rw [if_neg hc]
            exact ih _ h
      | help =>
          simp only [List.cons_append, processOpts] at h
          cases h
      | keepAlive n =>
          simp only [List.cons_append, processOpts] at h ⊢
          exact ih _ h
      | maxConnectionAge n =>
          simp only [List.cons_append, processOpts] at h ⊢
          exact ih _ h
      | strict =>
          simp only [List.cons_append, processOpts] at h ⊢
          exact ih _ h
      | version =>
          simp only [List.cons_append, processOpts] at h
          cases h
      | pidFile p =>
          simp only [List.cons_append, processOpts] at h ⊢
          exact ih _ h
      | unknownOpt =>
          simp only [List.cons_append, processOpts] at h ⊢
          exact ih _ h

/-- C3: on every bridge-loop iteration the poll timeout equals
max(0, keep_alive - (now - last_write_time)) * 1000 milliseconds. -/
theorem C3_poll_timeout_formula (ka t l : Int) :
    computeTimeout ka t l = 1000 * max 0 (ka - (t - l)) := by
  show (if 1000 * (ka - (t - l)) < 0 then 0 else 1000 * (ka - (t - l))) =
    1000 * max 0 (ka - (t - l))
  rw [max_def]
  split_ifs <;> omega

/-- C2: when poll times out, the bridge emits exactly one padding octet via
tunnel_padding(tunnel, 1) and resets last_tunnel_write to the current time
before looping; and whenever the bridge has been idle for at least
keep_alive seconds the computed poll timeout is already 0, so the wait
returns at once and the padding octet goes out within keep_alive + ε
seconds of idleness. -/
theorem C2_padding_on_timeout :
    (∀ (now : Int) (s : BridgeState) (cl : Bool),
      bridgeStep now s PollResult.pollTimeout cl =
        BridgeOutcome.continueLoop [Event.paddingWrite 1]
          { s with last_tunnel_write := now }) ∧
    (∀ ka t l : Int, ka ≤ t - l → computeTimeout ka t l = 0) := by
  constructor
  · intro now s cl
    rfl
  · intro ka t l h
    show (if 1000 * (ka - (t - l)) < 0 then 0 else 1000 * (ka - (t - l))) = 0
    split_ifs <;> omega

/-- Witness for C2 at a concrete idle bridge state. -/
theorem C2_padding_on_timeout_witness :
    bridgeStep 7 { closed := false, last_tunnel_write := 0 } PollResult.pollTimeout false =
      BridgeOutcome.continueLoop [Event.paddingWrite 1]
        { closed := false, last_tunnel_write := 7 } ∧
    computeTimeout 5 9 2 = 0 :=
  ⟨C2_padding_on_timeout.1 7 { closed := false, last_tunnel_write := 0 } false,
    C2_padding_on_timeout.2 5 9 2 (by decide)⟩

end Hts

namespace Hts

/-- C1: when the option scan completes, exactly one of --device and
--forward-port must be set: if neither or both are set the process prints a
usage hint to stderr and exits with code 1, and no listener is ever bound —
the exit happens inside parse_arguments, before tunnel_new_server, so the
startup trace carries no bindListener event. -/
theorem C1_device_xor_forward_required (opts : List CliOpt) (positional : List Int)
    (w : World) (a : Arguments)
    (hscan : processOpts opts defaultArguments = ParseResult.ok a)
    (hbad : (a.device = none ∧ a.forward_port = -1) ∨
      (a.device ≠ none ∧ a.forward_port ≠ -1)) :
    mainStartup opts positional w =
      StartupResult.exited [Event.usageErr, Event.exited 1] 1 ∧
    Event.bindListener ∉ [Event.usageErr, Event.exited 1] := by
  refine ⟨?_, by decide⟩
  have hchecks : ∀ b : Arguments, b.device = a.device → b.forward_port = a.forward_port →
      afterLoopChecks b = ParseResult.exited [Event.usageErr, Event.exited 1] 1 := by
    intro b hd hf
    rcases hbad with ⟨h1, h2⟩ | ⟨h1, h2⟩
    · have hb1 : b.device = none := hd.trans h1
      have hb2 : b.forward_port = -1 := hf.trans h2
      simp [afterLoopChecks, hb1, hb2]
    · obtain ⟨dev, hdev⟩ := Option.ne_none_iff_exists'.mp h1
      have hb1 : b.device = some dev := hd.trans hdev
      have hb2 : b.forward_port ≠ -1 := hf ▸ h2
      simp [afterLoopChecks, hb1, hb2]
  have hpa : parse_arguments opts positional =
      ParseResult.exited [Event.usageErr, Event.exited 1] 1 := by
    unfold parse_arguments
    rw [hscan]
    rcases positional with _ | ⟨p, _ | ⟨q, r⟩⟩
    · exact hchecks a rfl rfl
    · exact hchecks { a with port := p } rfl rfl
    · rfl
  unfold mainStartup
  rw [hpa]

/-- Witness for C1: the empty command line (neither switch given). -/
theorem C1_device_xor_forward_required_witness :
    mainStartup [] []
        { tunnelNewOk := true, setoptStrictRes := 0, setoptKeepAliveRes := 0,
          setoptMaxAgeRes := 0, pidOpenOk := false, pid := 0 } =
      StartupResult.exited [Event.usageErr, Event.exited 1] 1 ∧
    Event.bindListener ∉ [Event.usageErr, Event.exited 1] :=
  C1_device_xor_forward_required [] [] _ defaultArguments rfl (Or.inl ⟨rfl, rfl⟩)

/-- C4 counterexample: a startup in which all three tunnel_setopt calls
return -1 does not exit; main only logs the failures (lines 280-291 check
the return value solely to emit a debug log) and enters the accept loop. -/
theorem C4_counterexample_setopt_failure_ignored :
    c4World.setoptStrictRes = -1 ∧ c4World.setoptKeepAliveRes = -1 ∧
    c4World.setoptMaxAgeRes = -1 ∧
    (mainStartup c4Args [] c4World).isExit = false := by decide

/-- C4 (amended): a bad CLI combination is still fatal at startup, but a
tunnel_setopt call returning -1 is not: whatever the three setopt results
are, once parse_arguments succeeds and the tunnel is created, startup
always reaches the accept loop, recording at most debug-log events for the
failed calls and never an exit. -/
theorem C4_setopt_failure_nonfatal (opts : List CliOpt) (positional : List Int)
    (w : World) (a : Arguments)
    (hparse : parse_arguments opts positional = ParseResult.ok a)
    (hnew : w.tunnelNewOk = true) :
    mainStartup opts positional w =
      StartupResult.entersLoop
        ([Event.bindListener] ++ setoptEvents w ++ pidEvents a w) a ∧
    (∀ c, Event.exited c ∉ setoptEvents w) := by
  constructor
  · simp [mainStartup, hparse, hnew]
  · intro c
    simp only [setoptEvents]
    split_ifs <;> simp

/-- Witness for the amended C4: all three setopt calls fail, startup enters
the loop. -/
theorem C4_setopt_failure_nonfatal_witness :
    mainStartup c4Args [] c4World =
      StartupResult.entersLoop
        ([Event.bindListener] ++ setoptEvents c4World ++
          pidEvents { defaultArguments with device := some "/dev/ttyS0" } c4World)
        { defaultArguments with device := some "/dev/ttyS0" } ∧
    (∀ c, Event.exited c ∉ setoptEvents c4World) :=
  C4_setopt_failure_nonfatal c4Args [] c4World _ (by decide) rfl

/-- C5 counterexample: a poll() failure during a session terminates the
process with exit code 1 (lines 387-391 call log_exit(1)), and a failed
TCP connect to the forward host likewise exits 1 (lines 357-362); both
contradict the claim that they terminate at most the session. -/
theorem C5_counterexample_poll_connect_fatal :
    bridgeStep 0 { closed := false, last_tunnel_write := 0 } PollResult.pollErr false =
      BridgeOutcome.exitProcess [Event.exited 1] 1 ∧
    outerStep c5Args c5World =
      OuterOutcome.exitProcess [Event.acceptTry, Event.connectTry, Event.exited 1] 1 := by
  decide

/-- C5 (amended): the exit code is 0 on clean shutdown and 1 on startup
misconfiguration or unrecoverable downstream device failure, but a poll()
failure and a failed TCP connect to the forward host also terminate the
process with exit code 1; only a tunnel_accept failure is session-local. -/
theorem C5_poll_and_connect_failures_fatal (now : Int) (s : BridgeState) (cl : Bool)
    (a : Arguments) (w : OuterWorld)
    (hdev : a.device = none) (hfw : a.forward_port ≠ -1)
    (haccept : w.acceptOk = true) (haddr : w.setAddressOk = true)
    (hconn : w.connectRes = -1) :
    bridgeStep now s PollResult.pollErr cl =
      BridgeOutcome.exitProcess [Event.exited 1] 1 ∧
    outerStep a w =
      OuterOutcome.exitProcess [Event.acceptTry, Event.connectTry, Event.exited 1] 1 := by
  refine ⟨rfl, ?_⟩
  simp [outerStep, hdev, haccept, haddr, hconn, hfw]

/-- Witness for the amended C5 at a concrete forward-mode configuration. -/
theorem C5_poll_and_connect_failures_fatal_witness :
    bridgeStep 0 { closed := false, last_tunnel_write := 0 } PollResult.pollErr false =
      BridgeOutcome.exitProcess [Event.exited 1] 1 ∧
    outerStep c5Args c5World =
      OuterOutcome.exitProcess [Event.acceptTry, Event.connectTry, Event.exited 1] 1 :=
  C5_poll_and_connect_failures_fatal 0 { closed := false, last_tunnel_write := 0 } false
    c5Args c5World rfl (by decide) rfl rfl rfl

end Hts

namespace Hts

/-- C7: a tunnel_accept failure aborts only the current session attempt:
the outer loop logs a notice and continues to its next iteration (the
retryAccept outcome), so the listener persists and the process keeps
accepting — no exit and no teardown happens on this path. -/
theorem C7_accept_failure_retries (a : Arguments) (w : OuterWorld)
    (hdev : a.device.isSome = true → w.openDeviceRes ≠ -1)
    (haccept : w.acceptOk = false) :
    outerStep a w =
      OuterOutcome.retryAccept
        ((if a.device.isSome then [Event.openDev] else []) ++
          [Event.acceptTry, Event.acceptFailLog]) := by
  cases hds : a.device.isSome with
  | false => simp [outerStep, hds, haccept]
  | true =>
      have hne : w.openDeviceRes ≠ -1 := hdev hds
      simp [outerStep, hds, haccept, hne]

/-- Witness for C7 in forward mode with a failing accept. -/
theorem C7_accept_failure_retries_witness :
    outerStep c5Args
        { openDeviceRes := 0, acceptOk := false, setAddressOk := true, connectRes := 3 } =
      OuterOutcome.retryAccept
        ((if c5Args.device.isSome then [Event.openDev] else []) ++
          [Event.acceptTry, Event.acceptFailLog]) :=
  C7_accept_failure_retries c5Args
    { openDeviceRes := 0, acceptOk := false, setAddressOk := true, connectRes := 3 }
    (fun _ => by decide) rfl

end Hts

namespace Hts

/-- C9: in device mode every outer-loop iteration opens the device before
tunnel_accept, and when tunnel_accept fails the loop continues without
closing the just-opened descriptor: the iteration's trace is exactly
open-device, accept, log — it contains one device open and no close of any
kind, so each failed accept leaves one more device descriptor open. -/
theorem C9_device_fd_leak_on_accept_failure (a : Arguments) (w : OuterWorld)
    (p : String)
    (hdev : a.device = some p) (hopen : w.openDeviceRes ≠ -1)
    (haccept : w.acceptOk = false) :
    outerStep a w =
      OuterOutcome.retryAccept [Event.openDev, Event.acceptTry, Event.acceptFailLog] ∧
    [Event.openDev, Event.acceptTry, Event.acceptFailLog].count Event.openDev = 1 ∧
    [Event.openDev, Event.acceptTry, Event.acceptFailLog].count Event.closeDownstream = 0 := by
  refine ⟨?_, by decide, by decide⟩
  simp [outerStep, hdev, hopen, haccept]

/-- Witness for C9 at a concrete device-mode configuration. -/
theorem C9_device_fd_leak_on_accept_failure_witness :
    outerStep { defaultArguments with device := some "/dev/ttyS0" }
        { openDeviceRes := 5, acceptOk := false, setAddressOk := true, connectRes := 3 } =
      OuterOutcome.retryAccept [Event.openDev, Event.acceptTry, Event.acceptFailLog] ∧
    [Event.openDev, Event.acceptTry, Event.acceptFailLog].count Event.openDev = 1 ∧
    [Event.openDev, Event.acceptTry, Event.acceptFailLog].count Event.closeDownstream = 0 :=
  C9_device_fd_leak_on_accept_failure _ _ "/dev/ttyS0" rfl (by decide) rfl

/-- C8: when --pid-file PATH is given and the file opens, main writes
exactly the decimal PID followed by a single newline, and it does so during
startup, before the outer accept loop is entered. -/
theorem C8_pid_file_written (opts : List CliOpt) (positional : List Int)
    (w : World) (a : Arguments) (p : String)
    (hparse : parse_arguments opts positional = ParseResult.ok a)
    (hpid : a.pid_filename = some p)
    (hopen : w.pidOpenOk = true)
    (hnew : w.tunnelNewOk = true) :
    mainStartup opts positional w =
      StartupResult.entersLoop
        ([Event.bindListener] ++ setoptEvents w ++ pidEvents a w) a ∧
    pidEvents a w = [Event.writePid (toString w.pid ++ "\n")] := by
  constructor
  · simp [mainStartup, hparse, hnew]
  · simp [pidEvents, hpid, hopen]

/-- Witness for C8: pid 1234 is written as the string 1234 plus newline. -/
theorem C8_pid_file_written_witness :
    mainStartup c8Opts [] c8World =
      StartupResult.entersLoop
        ([Event.bindListener] ++ setoptEvents c8World ++ pidEvents c8Args c8World)
        c8Args ∧
    pidEvents c8Args c8World = [Event.writePid (toString (1234 : Nat) ++ "\n")] :=
  C8_pid_file_written c8Opts [] c8World c8Args "/run/hts.pid" (by decide) rfl rfl rfl

/-- C10: --help and --version exit the process with code 0 from inside the
option-scanning loop, before the exactly-one-of device/forward-port check
runs: appending either option to any scan that has not yet exited ends the
process with code 0, regardless of the positional arguments and of the
missing mandatory option. -/
theorem C10_help_version_exit_zero (pre : List CliOpt) (positional : List Int)
    (a : Arguments)
    (h : processOpts pre defaultArguments = ParseResult.ok a) :
    parse_arguments (pre ++ [CliOpt.help]) positional =
      ParseResult.exited [Event.usageOut, Event.exited 0] 0 ∧
    parse_arguments (pre ++ [CliOpt.version]) positional =
      ParseResult.exited [Event.versionOut, Event.exited 0] 0 := by
  constructor <;>
  · unfold parse_arguments
    rw [processOpts_append _ _ _ _ h]
    rfl

/-- Witness for C10: hts --help alone (no --device, no --forward-port)
exits 0, not 1. -/
theorem C10_help_version_exit_zero_witness :
    parse_arguments ([] ++ [CliOpt.help]) [] =
      ParseResult.exited [Event.usageOut, Event.exited 0] 0 ∧
    parse_arguments ([] ++ [CliOpt.version]) [] =
      ParseResult.exited [Event.versionOut, Event.exited 0] 0 :=
  C10_help_version_exit_zero [] [] defaultArguments rfl

end Hts

namespace Hts

/-- C6: when the bridge loop stops because the closed flag was set
(downstream EOF or unrecoverable error), the outer iteration ends with the
downstream fd closed and tunnel_close called, and falls to the next outer
iteration rather than exiting; the same tunnel endpoint is then offered to
outerStep again, where with a fresh peer (and working downstream) the next
tunnel_accept yields a new session without the process restarting. -/
theorem C6_session_close_reuse_tunnel (a : Arguments) (w w2 : OuterWorld)
    (fuel : Nat) (t0 : Int) (times : Nat → Int) (polls : Nat → PollResult)
    (closers : Nat → Bool) (es : List Event) (fd : Int)
    (hsession : outerStep a w = OuterOutcome.session es fd)
    (hrun : (bridgeRun fuel { closed := false, last_tunnel_write := t0 }
        times polls closers).2 = RunStatus.closedDone)
    (hdev2 : a.device.isSome = true → w2.openDeviceRes ≠ -1)
    (haccept2 : w2.acceptOk = true)
    (haddr2 : w2.setAddressOk = true)
    (hconn2 : w2.connectRes ≠ -1) :
    outerIteration a w fuel t0 times polls closers =
      IterOutcome.nextIteration
        (es ++ (bridgeRun fuel { closed := false, last_tunnel_write := t0 }
            times polls closers).1 ++
          [Event.closeDownstream, Event.tunnelCloseEv]) ∧
    (∃ es2 fd2, outerStep a w2 = OuterOutcome.session es2 fd2) := by
  constructor
  · unfold outerIteration
    rw [hsession]
    rcases hb : bridgeRun fuel { closed := false, last_tunnel_write := t0 }
        times polls closers with ⟨bes, st⟩
    rw [hb] at hrun
    have hst : st = RunStatus.closedDone := hrun
    subst hst
    rfl
  · have hopen : (a.device.isSome && (w2.openDeviceRes == -1)) = false := by
      cases hds : a.device.isSome with
      | false => rfl
      | true =>
          simp only [Bool.true_and]
          exact beq_eq_false_iff_ne.mpr (hdev2 hds)
    have hconnf : (w2.connectRes == -1) = false := beq_eq_false_iff_ne.mpr hconn2
    cases hfw : (a.forward_port != -1) with
    | true =>
        refine ⟨(if a.device.isSome then [Event.openDev] else []) ++
          [Event.acceptTry, Event.connectTry], w2.connectRes, ?_⟩
        simp [outerStep, hopen, haccept2, haddr2, hfw, hconnf]
    | false =>
        refine ⟨(if a.device.isSome then [Event.openDev] else []) ++
          [Event.acceptTry], if a.device.isSome then w2.openDeviceRes else -1, ?_⟩
        simp [outerStep, hopen, haccept2, hfw]

/-- Witness for C6: a device-mode session whose handlers set the closed
flag on the first iteration. -/
theorem C6_session_close_reuse_tunnel_witness :
    outerIteration { defaultArguments with device := some "/dev/ttyS0" } c6World 2 0
        (fun _ => 0) (fun _ => PollResult.ready true true) (fun _ => true) =
      IterOutcome.nextIteration
        ([Event.openDev, Event.acceptTry] ++
          (bridgeRun 2 { closed := false, last_tunnel_write := 0 } (fun _ => 0)
            (fun _ => PollResult.ready true true) (fun _ => true)).1 ++
          [Event.closeDownstream, Event.tunnelCloseEv]) ∧
    (∃ es2 fd2, outerStep { defaultArguments with device := some "/dev/ttyS0" } c6World =
      OuterOutcome.session es2 fd2) :=
  C6_session_close_reuse_tunnel { defaultArguments with device := some "/dev/ttyS0" }
    c6World c6World 2 0 (fun _ => 0) (fun _ => PollResult.ready true true) (fun _ => true)
    [Event.openDev, Event.acceptTry] 3 (by decide) (by decide)
    (fun _ => by decide) rfl rfl (by decide)

end Hts
